import Mathlib

/-!
Shallow embedding of the list/detail controllers of the n8n-mobile client.

The repository drives its list screens with React hooks:

* `useExecutions` (src/src/hooks/useExecutions.ts) — the executions list
  controller: snapshot of `Execution` items, cursor pagination, status and
  workflow filters, `refresh` / `loadMore` operations.
* `useWorkflows` (src/src/context/ThemeContext.tsx, second document) — the
  workflows list controller: snapshot of `Workflow` items, cursor
  pagination, free-text search filter, `refresh` / `loadMore` /
  `toggleActive` operations.
* `useExecution` (src/src/hooks/useExecutions.ts, second document) — the
  execution detail controller: single entity, `refresh` and `retry`.

Each asynchronous operation is embedded as two pure functions: a `_start`
function that performs exactly the state updates the source executes
synchronously before its `await`, returning the updated state together
with the pending request parameters, and a `_resolve` function that
performs the state updates the source executes when the awaited call
resolves (both the success branch, the catch branch and the finally
block).  An interleaved schedule of operations is then a sequence of
`_start` and `_resolve` applications.  React state updates are modelled
as taking effect immediately on the controller state.
-/

namespace N8nMobile

/-- JavaScript truthiness of an optional string: `undefined` and the empty
string are falsy, every other string is truthy.  The source tests cursors
and search filters with bare `if (x)` / `!!x`, so this is the predicate it
actually applies. -/
def jsTruthy : Option String → Bool
  | none => false
  | some s => s ≠ ""

/-- An execution record, reduced to the fields the controllers touch:
the opaque id, the status string, and the `retryOf` back-reference a
retried execution carries to the original execution id. -/
structure Execution where
  id : String
  status : String
  retryOf : Option String
deriving Repr, DecidableEq

/-- Body of a successful `GET /executions` response:
`{ data, nextCursor?, numberOfTotalRecords? }`. -/
structure ExecutionListResponse where
  data : List Execution
  nextCursor : Option String
  numberOfTotalRecords : Option Nat
deriving Repr, DecidableEq

/-- Query parameters of a `GET /executions` request, as assembled by the
hook: `{ limit, cursor?, status?, workflowId? }`. -/
structure GetExecutionsQuery where
  limit : Nat
  cursor : Option String
  status : Option String
  workflowId : Option String
deriving Repr, DecidableEq

namespace UseExecutions

/-- The state variables of the `useExecutions` hook, one field per
`useState` declaration. -/
structure State where
  executions : List Execution
  loading : Bool
  refreshing : Bool
  error : Option String
  hasMore : Bool
  totalRecords : Nat
  cursor : Option String
  statusFilter : Option String
  workflowFilter : Option String
deriving Repr, DecidableEq

/-- Initial hook state: empty list, `loading = true`, `hasMore = true`,
no cursor, no filters. -/
def initialState : State :=
  { executions := []
    loading := true
    refreshing := false
    error := none
    hasMore := true
    totalRecords := 0
    cursor := none
    statusFilter := none
    workflowFilter := none }

/-- An in-flight `fetchExecutions` call: the query parameters it was
issued with and its `replace` flag. -/
structure PendingFetch where
  params : GetExecutionsQuery
  replace : Bool
deriving Repr, DecidableEq

/-- Synchronous prefix of `fetchExecutions(params, replace)`: before the
`await`, the source sets `loading = true` when `replace` is set and clears
the error.  Returns the updated state and the pending request. -/
def fetchExecutions_start (s : State) (params : GetExecutionsQuery)
    (replace : Bool) : State × PendingFetch :=
  let s1 := if replace then { s with loading := true } else s
  ({ s1 with error := none }, ⟨params, replace⟩)

/-- Resumption of `fetchExecutions` when the awaited request settles.
On success the page either replaces the list or is appended to its tail,
then cursor, `hasMore` (truthy next-cursor AND non-empty page) and the
total-records hint are updated.  On failure only the error message is
stored.  The finally block clears `loading` and `refreshing` in every
case. -/
def fetchExecutions_resolve (s : State) (p : PendingFetch)
    (r : Except String ExecutionListResponse) : State :=
  let s1 :=
    match r with
    | .ok resp =>
      let s2 :=
        if p.replace then { s with executions := resp.data }
        else { s with executions := s.executions ++ resp.data }
      { s2 with
        cursor := resp.nextCursor
        hasMore := jsTruthy resp.nextCursor && !resp.data.isEmpty
        totalRecords := resp.numberOfTotalRecords.getD resp.data.length }
    | .error msg => { s with error := some msg }
  { s1 with loading := false, refreshing := false }

/-- Synchronous prefix of `refresh()`: sets `refreshing`, clears the
cursor, and calls `fetchExecutions` with the current filters, no cursor
parameter, and `replace = true`. -/
def refresh_start (limit : Nat) (s : State) : State × PendingFetch :=
  let s1 := { s with refreshing := true, cursor := none }
  fetchExecutions_start s1
    ⟨limit, none, s1.statusFilter, s1.workflowFilter⟩ true

/-- Synchronous prefix of `loadMore()`: returns without issuing a request
when `loading` is set or `hasMore` is cleared; otherwise calls
`fetchExecutions` with the stored cursor, the current filters, and
`replace = false`. -/
def loadMore_start (limit : Nat) (s : State) : State × Option PendingFetch :=
  if s.loading || !s.hasMore then (s, none)
  else
    let (s1, p) := fetchExecutions_start s
      ⟨limit, s.cursor, s.statusFilter, s.workflowFilter⟩ false
    (s1, some p)

/-- `handleSetStatusFilter(status)`: synchronously stores the filter,
clears cursor and list, and resets `hasMore` to true.  (The hook then
re-fetches through a `useEffect` on the filter, modelled by a separate
`effectFetch_start`.) -/
def handleSetStatusFilter (s : State) (status : Option String) : State :=
  { s with statusFilter := status, cursor := none, executions := [],
           hasMore := true }

/-- `handleSetWorkflowFilter(workflowId)`: same reset as the status
filter, for the workflow filter key. -/
def handleSetWorkflowFilter (s : State) (workflowId : Option String) :
    State :=
  { s with workflowFilter := workflowId, cursor := none, executions := [],
           hasMore := true }

/-- The `useEffect` re-fetch that fires after a filter change: a
`fetchExecutions` with the current filters, no cursor, and
`replace = true`. -/
def effectFetch_start (limit : Nat) (s : State) : State × PendingFetch :=
  fetchExecutions_start s
    ⟨limit, none, s.statusFilter, s.workflowFilter⟩ true

end UseExecutions

/-- A workflow record, reduced to the fields the controllers touch:
the opaque id, a server-owned payload field (name), and the `active`
flag the UI toggles. -/
structure Workflow where
  id : String
  name : String
  active : Bool
deriving Repr, DecidableEq

/-- Body of a successful workflows list response: `{ data, nextCursor? }`. -/
structure WorkflowsResponse where
  data : List Workflow
  nextCursor : Option String
deriving Repr, DecidableEq

namespace UseWorkflows

/-- The state variables of the `useWorkflows` hook, one field per
`useState` declaration. -/
structure State where
  workflows : List Workflow
  loading : Bool
  refreshing : Bool
  error : Option String
  hasMore : Bool
  cursor : Option String
  searchQuery : String
deriving Repr, DecidableEq

/-- Initial hook state: empty list, `loading = true`, `hasMore = true`,
no cursor, empty search query. -/
def initialState : State :=
  { workflows := []
    loading := true
    refreshing := false
    error := none
    hasMore := true
    cursor := none
    searchQuery := "" }

/-- An in-flight `n8nApi.getWorkflows` call: the parameters the hook
assembled and the `isRefresh` flag of the `fetchWorkflows` invocation. -/
structure PendingFetch where
  limit : Nat
  cursor : Option String
  filter : Option String
  isRefresh : Bool
deriving Repr, DecidableEq

/-- Synchronous prefix of `fetchWorkflows(isRefresh, searchFilter)`:
before the `await`, a refresh sets `refreshing` and clears the cursor
while a non-refresh sets `loading`; the error is cleared; the request
parameters carry the stored cursor only for a non-refresh with a truthy
cursor, and the filter only when the search string is truthy. -/
def fetchWorkflows_start (pageSize : Nat) (s : State) (isRefresh : Bool)
    (searchFilter : Option String) : State × PendingFetch :=
  let cursor0 := s.cursor
  let s1 :=
    if isRefresh then { s with refreshing := true, cursor := none }
    else { s with loading := true }
  let s2 := { s1 with error := none }
  let pCursor := if !isRefresh && jsTruthy cursor0 then cursor0 else none
  let pFilter := if jsTruthy searchFilter then searchFilter else none
  (s2, ⟨pageSize, pCursor, pFilter, isRefresh⟩)

/-- Resumption of `fetchWorkflows` when the awaited request settles.
On success the page either replaces the list or is appended to its tail;
a truthy next-cursor stores the cursor and sets `hasMore = true`,
otherwise `hasMore` is cleared and the stored cursor is left as it is.
On failure only the error message is stored.  The finally block clears
`loading` and `refreshing` in every case. -/
def fetchWorkflows_resolve (s : State) (p : PendingFetch)
    (r : Except String WorkflowsResponse) : State :=
  let s1 :=
    match r with
    | .ok resp =>
      let s2 :=
        if p.isRefresh then { s with workflows := resp.data }
        else { s with workflows := s.workflows ++ resp.data }
      if jsTruthy resp.nextCursor then
        { s2 with cursor := resp.nextCursor, hasMore := true }
      else
        { s2 with hasMore := false }
    | .error msg => { s with error := some msg }
  { s1 with loading := false, refreshing := false }

/-- Synchronous prefix of `refresh()`: clears the cursor and calls
`fetchWorkflows(true, searchQuery)`. -/
def refresh_start (pageSize : Nat) (s : State) : State × PendingFetch :=
  fetchWorkflows_start pageSize { s with cursor := none } true
    (some s.searchQuery)

/-- Synchronous prefix of `loadMore()`: issues
`fetchWorkflows(false, searchQuery)` only when `loading`, `refreshing`
are both clear and `hasMore` is set; otherwise it is a no-op. -/
def loadMore_start (pageSize : Nat) (s : State) :
    State × Option PendingFetch :=
  if !s.loading && !s.refreshing && s.hasMore then
    let (s1, p) := fetchWorkflows_start pageSize s false (some s.searchQuery)
    (s1, some p)
  else (s, none)

/-- An in-flight `n8nApi.toggleWorkflowActive` call: the target workflow
id and the requested `active` value. -/
structure PendingToggle where
  workflowId : String
  active : Bool
deriving Repr, DecidableEq

/-- Synchronous prefix of `toggleActive(workflowId, active)`: the source
performs no state update before awaiting the server call — the snapshot
is untouched until the call settles. -/
def toggleActive_start (s : State) (workflowId : String) (active : Bool) :
    State × PendingToggle :=
  (s, ⟨workflowId, active⟩)

/-- Resumption of `toggleActive` when the awaited call settles.  On
success the matching item's `active` field is set to the value the server
returned.  On failure the error message is stored and the error is
rethrown to the caller; the second component is the propagated exception
(`none` when nothing is thrown). -/
def toggleActive_resolve (s : State) (p : PendingToggle)
    (r : Except String Workflow) : State × Option String :=
  match r with
  | .ok updatedWorkflow =>
    ({ s with workflows := s.workflows.map fun w =>
        if w.id = p.workflowId then { w with active := updatedWorkflow.active }
        else w },
     none)
  | .error msg => ({ s with error := some msg }, some msg)

/-- `searchWorkflows(query)`: synchronously stores the query, clears
cursor and list, and resets `hasMore` to true. -/
def searchWorkflows (s : State) (query : String) : State :=
  { s with searchQuery := query, cursor := none, workflows := [],
           hasMore := true }

end UseWorkflows

namespace UseExecution

/-- The state variables of the `useExecution` detail hook, one field per
`useState` declaration. -/
structure State where
  execution : Option Execution
  loading : Bool
  refreshing : Bool
  error : Option String
  retrying : Bool
  retryError : Option String
deriving Repr, DecidableEq

/-- Initial detail hook state: nothing loaded, `loading = true`. -/
def initialState : State :=
  { execution := none
    loading := true
    refreshing := false
    error := none
    retrying := false
    retryError := none }

/-- Synchronous prefix of `fetchExecution(isRefresh)`: a refresh sets
`refreshing`, a first load sets `loading`; the error is cleared. -/
def fetchExecution_start (s : State) (isRefresh : Bool) : State :=
  let s1 :=
    if isRefresh then { s with refreshing := true }
    else { s with loading := true }
  { s1 with error := none }

/-- Resumption of `fetchExecution` when the awaited request settles: on
success the fetched entity is stored, on failure the error message; the
finally block clears `loading` and `refreshing` in every case. -/
def fetchExecution_resolve (s : State) (r : Except String Execution) :
    State :=
  let s1 :=
    match r with
    | .ok e => { s with execution := some e }
    | .error msg => { s with error := some msg }
  { s1 with loading := false, refreshing := false }

/-- Synchronous prefix of `retry()`: when no execution is loaded the
operation returns null without issuing a request (second component
`false`); otherwise it sets `retrying`, clears the retry error and issues
the retry call (second component `true`). -/
def retry_start (s : State) : State × Bool :=
  match s.execution with
  | none => (s, false)
  | some _ => ({ s with retrying := true, retryError := none }, true)

/-- Resumption of `retry()` when the awaited call settles.  On success
the returned execution becomes the displayed entity and is also returned
to the caller (second component); on failure the retry error is stored
and null is returned.  The finally block clears `retrying`. -/
def retry_resolve (s : State) (r : Except String Execution) :
    State × Option Execution :=
  match r with
  | .ok resp => ({ s with execution := some resp, retrying := false }, some resp)
  | .error msg => ({ s with retryError := some msg, retrying := false }, none)

end UseExecution

/-- Sample execution returned by an initial load. -/
def execA : Execution := { id := "a", status := "success", retryOf := none }

/-- Sample execution returned by a stale load-more page. -/
def execB : Execution := { id := "b", status := "success", retryOf := none }

/-- Sample execution returned by a fetch under the error-status filter. -/
def execC : Execution := { id := "c", status := "error", retryOf := none }

/-- An executions-controller state as it stands after a settled initial
load: one item, no fetch in flight, a stored cursor, `hasMore` set, no
filters. -/
def execReadyState : UseExecutions.State :=
  { executions := [execA]
    loading := false
    refreshing := false
    error := none
    hasMore := true
    totalRecords := 1
    cursor := some "c1"
    statusFilter := none
    workflowFilter := none }

/-- Sample workflow, currently active. -/
def wfW1 : Workflow := { id := "w1", name := "My Workflow", active := true }

/-- A workflows-controller state as it stands after a settled initial
load: one item, no fetch in flight, a stored cursor, `hasMore` set,
empty search query. -/
def wfReadyState : UseWorkflows.State :=
  { workflows := [wfW1]
    loading := false
    refreshing := false
    error := none
    hasMore := true
    cursor := some "wc1"
    searchQuery := "" }

/-- C1 scenario, step 1-2: a `loadMore` is issued under the unfiltered
context, then `setStatusFilter` advances the context before the
load-more resolves. -/
def C1_afterFilterChange : UseExecutions.State :=
  UseExecutions.handleSetStatusFilter
    (UseExecutions.loadMore_start 20 execReadyState).1 (some "error")

/-- C1 scenario, step 3: the filter-change effect issues a replace fetch
under the new context, and that fetch resolves first with one page. -/
def C1_afterNewFetch : UseExecutions.State :=
  UseExecutions.fetchExecutions_resolve
    (UseExecutions.effectFetch_start 20 C1_afterFilterChange).1
    (UseExecutions.effectFetch_start 20 C1_afterFilterChange).2
    (.ok { data := [execC], nextCursor := none, numberOfTotalRecords := none })

/-- C1 scenario, step 4: the stale load-more issued under the old
context finally resolves. -/
def C1_final : UseExecutions.State :=
  UseExecutions.fetchExecutions_resolve C1_afterNewFetch
    ⟨⟨20, some "c1", none, none⟩, false⟩
    (.ok { data := [execB], nextCursor := none, numberOfTotalRecords := none })

/-- C2 scenario: state and pending fetch after the first of two
back-to-back `refresh()` calls. -/
def C2_s1 : UseExecutions.State :=
  (UseExecutions.refresh_start 20 execReadyState).1

/-- C2 scenario: pending fetch of the first refresh. -/
def C2_p1 : UseExecutions.PendingFetch :=
  (UseExecutions.refresh_start 20 execReadyState).2

/-- C2 scenario: state after the second back-to-back `refresh()` call. -/
def C2_s2 : UseExecutions.State :=
  (UseExecutions.refresh_start 20 C2_s1).1

/-- C2 scenario: pending fetch of the second refresh. -/
def C2_p2 : UseExecutions.PendingFetch :=
  (UseExecutions.refresh_start 20 C2_s1).2

/-- C2 scenario: state after the first refresh's result lands. -/
def C2_mid : UseExecutions.State :=
  UseExecutions.fetchExecutions_resolve C2_s2 C2_p1
    (.ok { data := [execB], nextCursor := some "c2", numberOfTotalRecords := some 5 })

/-- C2 scenario: state after the second refresh's result lands. -/
def C2_final : UseExecutions.State :=
  UseExecutions.fetchExecutions_resolve C2_mid C2_p2
    (.ok { data := [execC], nextCursor := some "c3", numberOfTotalRecords := some 5 })

/-- C1 counterexample: a `loadMore` is issued under the unfiltered
context (the pending fetch carries the old cursor), `setStatusFilter`
then advances the context and the new-context fetch resolves with
`[execC]`; when the stale load-more later resolves with `[execB]`, its
items ARE appended — the final list is `[execC, execB]`, not the
`[execC]` the claim requires, and the stale item `execB` is present. -/
theorem C1_counterexample :
    (UseExecutions.loadMore_start 20 execReadyState).2 =
      some ⟨⟨20, some "c1", none, none⟩, false⟩ ∧
    C1_final.executions = [execC, execB] ∧
    execB ∈ C1_final.executions ∧
    C1_final.executions ≠ [execC] := by decide

/-- C1 amended: the executions controller has no generation guard, so a
load-more result that resolves after a filter change IS appended: right
after the filter change the cleared list becomes exactly the stale page,
and if the new-context replace fetch has already resolved, the stale
page is appended after its items. -/
theorem C1_stale_loadMore_result_is_appended
    (s : UseExecutions.State) (status : Option String)
    (q qNew : GetExecutionsQuery) (resp respNew : ExecutionListResponse) :
    (UseExecutions.fetchExecutions_resolve
      (UseExecutions.handleSetStatusFilter s status) ⟨q, false⟩
      (.ok resp)).executions = resp.data ∧
    (UseExecutions.fetchExecutions_resolve
      (UseExecutions.fetchExecutions_resolve
        (UseExecutions.handleSetStatusFilter s status) ⟨qNew, true⟩
        (.ok respNew)) ⟨q, false⟩ (.ok resp)).executions
      = respNew.data ++ resp.data := by
  constructor <;>
    simp [UseExecutions.fetchExecutions_resolve,
      UseExecutions.handleSetStatusFilter]

/-- C2 counterexample: two back-to-back `refresh()` calls from a state
whose snapshot is `[execA]`; the first result `[execB]` IS applied as a
snapshot replacement (intermediate snapshot `[execB]`), then the second
result `[execC]` is applied as well (final snapshot `[execC]`) — two
applied snapshot replacements, not exactly one with the other dropped. -/
theorem C2_counterexample :
    execReadyState.executions = [execA] ∧
    C2_mid.executions = [execB] ∧
    C2_final.executions = [execC] ∧
    ([execB] : List Execution) ≠ [execA] ∧
    ([execB] : List Execution) ≠ [execC] := by decide

/-- C2 amended: there is no generation guard, so both refresh results
are applied, each as a wholesale snapshot replacement in arrival order;
the final snapshot equals the later-resolving fetch's page alone, so the
two pages are never merged. -/
theorem C2_refresh_twice_both_replace
    (limit : Nat) (s : UseExecutions.State)
    (r1 r2 : ExecutionListResponse) :
    (UseExecutions.fetchExecutions_resolve
      (UseExecutions.refresh_start limit
        (UseExecutions.refresh_start limit s).1).1
      (UseExecutions.refresh_start limit s).2 (.ok r1)).executions
      = r1.data ∧
    (UseExecutions.fetchExecutions_resolve
      (UseExecutions.fetchExecutions_resolve
        (UseExecutions.refresh_start limit
          (UseExecutions.refresh_start limit s).1).1
        (UseExecutions.refresh_start limit s).2 (.ok r1))
      (UseExecutions.refresh_start limit
        (UseExecutions.refresh_start limit s).1).2
      (.ok r2)).executions = r2.data := by
  constructor <;>
    simp [UseExecutions.fetchExecutions_resolve,
      UseExecutions.refresh_start, UseExecutions.fetchExecutions_start]

/-- C3 counterexample: with workflow `w1` active, calling
`toggleActive("w1", false)` performs no synchronous state update — the
item still shows `active = true` until the server call resolves, so the
patch is not applied optimistically before resolution. -/
theorem C3_counterexample :
    (UseWorkflows.toggleActive_start wfReadyState "w1" false).1
      = wfReadyState ∧
    ((UseWorkflows.toggleActive_start wfReadyState "w1" false).1.workflows.map
      Workflow.active) = [true] := by decide

/-- C3 amended: the `toggleActive` mutation is not optimistic — the
snapshot is untouched until the server call resolves, and on resolution
the matching item's `active` field is set to the server-returned value
(so it shows the confirmed value from then on, with nothing thrown). -/
theorem C3_toggle_applies_only_after_resolve
    (s : UseWorkflows.State) (id : String) (b : Bool)
    (updated : Workflow) :
    (UseWorkflows.toggleActive_start s id b).1 = s ∧
    (UseWorkflows.toggleActive_resolve s ⟨id, b⟩ (.ok updated)).1.workflows
      = s.workflows.map (fun w =>
          if w.id = id then { w with active := updated.active } else w) ∧
    (UseWorkflows.toggleActive_resolve s ⟨id, b⟩ (.ok updated)).2 = none :=
  ⟨rfl, rfl, rfl⟩

/-- C4 counterexample: when the server call of `toggleActive` rejects,
the error IS rethrown to the caller — the propagated-exception component
is `some "Failed to update workflow"`, not `none` as the claim requires. -/
theorem C4_counterexample :
    (UseWorkflows.toggleActive_resolve wfReadyState ⟨"w1", true⟩
      (.error "Failed to update workflow")).2
      = some "Failed to update workflow" ∧
    some "Failed to update workflow" ≠ (none : Option String) := by decide

/-- C4 amended: when the server call rejects, the snapshot is untouched
(so every entity keeps its pre-mutation `active` value, there having
been no optimistic update), the surfaced error is the non-null message,
but the error IS rethrown to the caller. -/
theorem C4_failure_keeps_snapshot_but_rethrows
    (s : UseWorkflows.State) (p : UseWorkflows.PendingToggle)
    (msg : String) :
    (UseWorkflows.toggleActive_resolve s p (.error msg)).1.workflows
      = s.workflows ∧
    (UseWorkflows.toggleActive_resolve s p (.error msg)).1.error
      = some msg ∧
    (UseWorkflows.toggleActive_resolve s p (.error msg)).2 = some msg :=
  ⟨rfl, rfl, rfl⟩

/-- C5 counterexample: the workflows controller, given a successful
response with a non-empty next-cursor and an empty page, sets
`hasMore = true`, while the claim requires `false` (exhausted) — its
`hasMore` logic ignores page emptiness. -/
theorem C5_counterexample :
    (UseWorkflows.fetchWorkflows_resolve wfReadyState ⟨20, none, none, true⟩
      (.ok { data := [], nextCursor := some "c9" })).hasMore = true ∧
    (jsTruthy (some "c9") && !([] : List Workflow).isEmpty) = false := by
  decide

/-- C5 amended: only the executions controller computes `hasMore` as
truthy next-cursor AND non-empty page; the workflows controller computes
`hasMore` as truthy next-cursor alone, regardless of page emptiness. -/
theorem C5_hasMore_semantics
    (s : UseExecutions.State) (p : UseExecutions.PendingFetch)
    (resp : ExecutionListResponse) (t : UseWorkflows.State)
    (q : UseWorkflows.PendingFetch) (wresp : WorkflowsResponse) :
    (UseExecutions.fetchExecutions_resolve s p (.ok resp)).hasMore
      = (jsTruthy resp.nextCursor && !resp.data.isEmpty) ∧
    (UseWorkflows.fetchWorkflows_resolve t q (.ok wresp)).hasMore
      = jsTruthy wresp.nextCursor := by
  constructor
  · simp [UseExecutions.fetchExecutions_resolve]
  · cases h : jsTruthy wresp.nextCursor <;>
      simp [UseWorkflows.fetchWorkflows_resolve, h]

/-- C6 counterexample: from a settled state the first `loadMore` issues
a fetch, and while that fetch is still in flight a second `loadMore` is
NOT a no-op — it issues another fetch, with the same stored cursor as
the first; the claim requires the second call to issue no fetch. -/
theorem C6_counterexample :
    (UseExecutions.loadMore_start 20 execReadyState).2.isSome = true ∧
    (UseExecutions.loadMore_start 20
      (UseExecutions.loadMore_start 20 execReadyState).1).2.isSome = true ∧
    (UseExecutions.loadMore_start 20
      (UseExecutions.loadMore_start 20 execReadyState).1).2
      = (UseExecutions.loadMore_start 20 execReadyState).2 := by decide

/-- C6 amended: the executions controller's `loadMore` is a no-op
exactly when `loading` is set or `hasMore` is cleared; an in-flight
load-more leaves `loading` clear, so it does not suppress a concurrent
`loadMore` (only an initial load or a refresh does, via `loading`); an
issued fetch carries the stored cursor and current filters and its
success appends the page at the tail.  The workflows controller's
`loadMore` is a no-op exactly when `loading` or `refreshing` is set or
`hasMore` is cleared, and an issued workflows load-more sets `loading`,
so there a concurrent `loadMore` IS suppressed. -/
theorem C6_loadMore_guards
    (limit pageSize : Nat) (s : UseExecutions.State)
    (p : UseExecutions.PendingFetch) (resp : ExecutionListResponse)
    (t : UseWorkflows.State) :
    ((UseExecutions.loadMore_start limit s).2 = none
        ↔ (s.loading = true ∨ s.hasMore = false)) ∧
    ((UseExecutions.loadMore_start limit s).2 = none
        → UseExecutions.loadMore_start limit s = (s, none)) ∧
    ((UseExecutions.loadMore_start limit s).1.loading = s.loading) ∧
    ((UseExecutions.loadMore_start limit s).2 ≠ none
        → (UseExecutions.loadMore_start limit s).2
            = some ⟨⟨limit, s.cursor, s.statusFilter, s.workflowFilter⟩,
                    false⟩) ∧
    (p.replace = false →
      (UseExecutions.fetchExecutions_resolve s p (.ok resp)).executions
        = s.executions ++ resp.data) ∧
    ((UseWorkflows.loadMore_start pageSize t).2 = none
        ↔ ¬(t.loading = false ∧ t.refreshing = false ∧ t.hasMore = true)) ∧
    ((UseWorkflows.loadMore_start pageSize t).2 = none
        → UseWorkflows.loadMore_start pageSize t = (t, none)) ∧
    ((UseWorkflows.loadMore_start pageSize t).2 ≠ none
        → (UseWorkflows.loadMore_start pageSize t).1.loading = true) := by
  refine ⟨?_, ?_, ?_, ?_, ?_, ?_, ?_, ?_⟩
  · cases hl : s.loading <;> cases hm : s.hasMore <;>
      simp [UseExecutions.loadMore_start, UseExecutions.fetchExecutions_start,
        hl, hm]
  · cases hl : s.loading <;> cases hm : s.hasMore <;>
      simp [UseExecutions.loadMore_start, UseExecutions.fetchExecutions_start,
        hl, hm]
  · cases hl : s.loading <;> cases hm : s.hasMore <;>
      simp [UseExecutions.loadMore_start, UseExecutions.fetchExecutions_start,
        hl, hm]
  · cases hl : s.loading <;> cases hm : s.hasMore <;>
      simp [UseExecutions.loadMore_start, UseExecutions.fetchExecutions_start,
        hl, hm]
  · intro h
    simp [UseExecutions.fetchExecutions_resolve, h]
  · cases hl : t.loading <;> cases hr : t.refreshing <;>
      cases hm : t.hasMore <;>
      simp [UseWorkflows.loadMore_start, UseWorkflows.fetchWorkflows_start,
        hl, hr, hm]
  · cases hl : t.loading <;> cases hr : t.refreshing <;>
      cases hm : t.hasMore <;>
      simp [UseWorkflows.loadMore_start, UseWorkflows.fetchWorkflows_start,
        hl, hr, hm]
  · cases hl : t.loading <;> cases hr : t.refreshing <;>
      cases hm : t.hasMore <;>
      simp [UseWorkflows.loadMore_start, UseWorkflows.fetchWorkflows_start,
        hl, hr, hm]

/-- C6 witness: the guard characterization instantiated at concrete
states — `execReadyState` for the executions controller and
`wfReadyState` for the workflows controller. -/
theorem C6_loadMore_guards_witness :
    (((UseExecutions.loadMore_start 20 execReadyState).2 = none
        ↔ (execReadyState.loading = true ∨ execReadyState.hasMore = false)) ∧
    ((UseExecutions.loadMore_start 20 execReadyState).2 = none
        → UseExecutions.loadMore_start 20 execReadyState
            = (execReadyState, none)) ∧
    ((UseExecutions.loadMore_start 20 execReadyState).1.loading
        = execReadyState.loading) ∧
    ((UseExecutions.loadMore_start 20 execReadyState).2 ≠ none
        → (UseExecutions.loadMore_start 20 execReadyState).2
            = some ⟨⟨20, execReadyState.cursor, execReadyState.statusFilter,
                     execReadyState.workflowFilter⟩, false⟩) ∧
    ((⟨⟨20, none, none, none⟩, false⟩ :
        UseExecutions.PendingFetch).replace = false →
      (UseExecutions.fetchExecutions_resolve execReadyState
        ⟨⟨20, none, none, none⟩, false⟩
        (.ok { data := [execB], nextCursor := none,
               numberOfTotalRecords := none })).executions
        = execReadyState.executions ++ [execB]) ∧
    ((UseWorkflows.loadMore_start 20 wfReadyState).2 = none
        ↔ ¬(wfReadyState.loading = false ∧ wfReadyState.refreshing = false ∧
              wfReadyState.hasMore = true)) ∧
    ((UseWorkflows.loadMore_start 20 wfReadyState).2 = none
        → UseWorkflows.loadMore_start 20 wfReadyState = (wfReadyState, none)) ∧
    ((UseWorkflows.loadMore_start 20 wfReadyState).2 ≠ none
        → (UseWorkflows.loadMore_start 20 wfReadyState).1.loading = true)) :=
  C6_loadMore_guards 20 20 execReadyState ⟨⟨20, none, none, none⟩, false⟩
    { data := [execB], nextCursor := none, numberOfTotalRecords := none }
    wfReadyState

/-- C7: for both list controllers, a synchronous filter change — status
or workflow filter on the executions controller, search query on the
workflows controller — clears the items and the cursor and resets
`hasMore` to true, before any new fetch resolves. -/
theorem C7_setFilter_resets
    (s : UseExecutions.State) (v w : Option String)
    (t : UseWorkflows.State) (q : String) :
    (UseExecutions.handleSetStatusFilter s v).executions = [] ∧
    (UseExecutions.handleSetStatusFilter s v).cursor = none ∧
    (UseExecutions.handleSetStatusFilter s v).hasMore = true ∧
    (UseExecutions.handleSetWorkflowFilter s w).executions = [] ∧
    (UseExecutions.handleSetWorkflowFilter s w).cursor = none ∧
    (UseExecutions.handleSetWorkflowFilter s w).hasMore = true ∧
    (UseWorkflows.searchWorkflows t q).workflows = [] ∧
    (UseWorkflows.searchWorkflows t q).cursor = none ∧
    (UseWorkflows.searchWorkflows t q).hasMore = true :=
  ⟨rfl, rfl, rfl, rfl, rfl, rfl, rfl, rfl, rfl⟩

/-- C8: when an executions fetch fails, the items, cursor, `hasMore` and
total-records hint are all left unchanged and the error is stored as a
non-null message; moreover neither `refresh` nor `loadMore` touches the
items before their fetch resolves, so a failed refresh or load-more
leaves the snapshot intact end to end. -/
theorem C8_failure_preserves_snapshot
    (s : UseExecutions.State) (p : UseExecutions.PendingFetch)
    (msg : String) (limit : Nat) :
    (UseExecutions.fetchExecutions_resolve s p (.error msg)).executions
      = s.executions ∧
    (UseExecutions.fetchExecutions_resolve s p (.error msg)).error
      = some msg ∧
    (UseExecutions.fetchExecutions_resolve s p (.error msg)).cursor
      = s.cursor ∧
    (UseExecutions.fetchExecutions_resolve s p (.error msg)).hasMore
      = s.hasMore ∧
    (UseExecutions.fetchExecutions_resolve s p (.error msg)).totalRecords
      = s.totalRecords ∧
    (UseExecutions.refresh_start limit s).1.executions = s.executions ∧
    (UseExecutions.loadMore_start limit s).1.executions = s.executions := by
  refine ⟨rfl, rfl, rfl, rfl, rfl, rfl, ?_⟩
  cases hl : s.loading <;> cases hm : s.hasMore <;>
    simp [UseExecutions.loadMore_start, UseExecutions.fetchExecutions_start,
      hl, hm]

/-- C9: when a retry resolves successfully, the detail controller's
displayed entity becomes exactly the server-returned execution record —
whatever was displayed before, including a new id carrying a `retryOf`
back-reference — and the same record is returned to the caller. -/
theorem C9_retry_replaces_entity
    (s : UseExecution.State) (resp : Execution) :
    (UseExecution.retry_resolve s (.ok resp)).1.execution = some resp ∧
    (UseExecution.retry_resolve s (.ok resp)).2 = some resp :=
  ⟨rfl, rfl⟩

/-- C10: after any executions-list fetch or execution-detail fetch
settles — successfully or with an error — both the `loading` and
`refreshing` flags are false, so the lifecycle always returns to a
non-fetching state. -/
theorem C10_flags_cleared_after_fetch
    (s : UseExecutions.State) (p : UseExecutions.PendingFetch)
    (r : Except String ExecutionListResponse)
    (t : UseExecution.State) (r2 : Except String Execution) :
    (UseExecutions.fetchExecutions_resolve s p r).loading = false ∧
    (UseExecutions.fetchExecutions_resolve s p r).refreshing = false ∧
    (UseExecution.fetchExecution_resolve t r2).loading = false ∧
    (UseExecution.fetchExecution_resolve t r2).refreshing = false :=
  ⟨rfl, rfl, rfl, rfl⟩

end N8nMobile
